import Mathlib

/-!
Verification development for the WODM_Viewer visualizer
(`static/js/visualizer.js`): a shallow embedding of the viewport
transform, the hit-test engine, the layer renderer's agent/trajectory
passes, and the playback / scenario-navigation state machine, together
with proofs about them.

Numbers are modelled as exact rationals (`ℚ`): the JavaScript source
computes with IEEE doubles, but every claim under study is about the
algebraic structure of the computations, which the rational model
renders exactly.  The two calls to `Math.sqrt` in the source
(`pointToSegmentDistance` and the stop-sign distance) are immediately
compared against a nonnegative bound, so they are embedded by comparing
squared distances, which is exactly equivalent.  `Math.cos`/`Math.sin`
are abstracted as an explicit environment of functions, since the
claims do not depend on their values.
-/

namespace WODM

/-- Environment abstracting JavaScript's `Math.cos` / `Math.sin`, which the
hit-test uses to rotate points into an agent's local frame. -/
structure TrigEnv where
  cos : ℚ → ℚ
  sin : ℚ → ℚ

/-- One entry of a track's `states` array: the fields of a per-timestep agent
state that the renderer and hit-test read (`x`, `y`, `heading`, `length`,
`width`, `valid`).  `length`/`width` are `Option` because the source guards
them with `state.length || 4` / `state.width || 2`; fields the claims never
touch (`z`, `velocity_x/y`, `height`) are omitted. -/
structure TrackState where
  x : ℚ
  y : ℚ
  heading : ℚ
  length : Option ℚ
  width : Option ℚ
  valid : Bool
  deriving DecidableEq, Repr

/-- A track: an object id plus its per-timestep state array. -/
structure Track where
  id : ℤ
  states : List TrackState
  deriving DecidableEq, Repr

/-- The four track collections of `scenarioData.tracks`. -/
structure Tracks where
  sdc : Option Track
  vehicles : List Track
  pedestrians : List Track
  cyclists : List Track
  deriving DecidableEq, Repr

/-- A polyline map feature (lane, road line, road edge): only the geometry
read by render/hit-test; per-type metadata is omitted. -/
structure PolylineFeature where
  polyline : List (ℚ × ℚ)
  deriving DecidableEq, Repr

/-- A polygon map feature (crosswalk, speed bump, driveway). -/
structure PolygonFeature where
  polygon : List (ℚ × ℚ)
  deriving DecidableEq, Repr

/-- A point map feature (stop sign). -/
structure PointFeature where
  position : ℚ × ℚ
  deriving DecidableEq, Repr

/-- `scenarioData.map_features`. -/
structure MapFeatures where
  lanes : List PolylineFeature
  road_lines : List PolylineFeature
  road_edges : List PolylineFeature
  crosswalks : List PolygonFeature
  stop_signs : List PointFeature
  speed_bumps : List PolygonFeature
  driveways : List PolygonFeature
  deriving DecidableEq, Repr

/-- One loaded scenario (`scenarioData`): timestamps, tracks and map
features; the traffic-light timeline is omitted (no claim touches it). -/
structure Scenario where
  timestamps : List ℚ
  tracks : Tracks
  map_features : MapFeatures
  deriving DecidableEq, Repr

/-- The `layerVisibility` map (the layers consulted by render and
hit-test). -/
structure LayerVisibility where
  sdc : Bool
  vehicles : Bool
  pedestrians : Bool
  cyclists : Bool
  lanes : Bool
  road_lines : Bool
  road_edges : Bool
  crosswalks : Bool
  stop_signs : Bool
  speed_bumps : Bool
  driveways : Bool
  traffic_lights : Bool
  trajectories : Bool
  tracks_to_predict : Bool
  objects_of_interest : Bool
  deriving DecidableEq, Repr

/-- The viewport fields mutated by pan/zoom (`viewState`); the transient
drag fields are omitted. -/
structure ViewState where
  offsetX : ℚ
  offsetY : ℚ
  scale : ℚ
  deriving DecidableEq, Repr

/-- JavaScript `v || d` for an optional numeric field: `undefined` and `0`
are falsy, so both select the default `d`. -/
def jsOr (v : Option ℚ) (d : ℚ) : ℚ :=
  match v with
  | none => d
  | some x => if x = 0 then d else x

/-! ## Viewport: screen/world transform and wheel zoom -/

/-- The screen→world conversion used by `onMouseMove` / `onMouseWheel` /
`onCanvasClick`:
`worldX = (sx - centerX - offsetX) / scale`,
`worldY = -(sy - centerY - offsetY) / scale`. -/
def screenToWorld (v : ViewState) (centerX centerY sx sy : ℚ) : ℚ × ℚ :=
  ((sx - centerX - v.offsetX) / v.scale, -(sy - centerY - v.offsetY) / v.scale)

/-- The world→screen mapping set up by `render()`'s
`ctx.translate(w/2 + offsetX, h/2 + offsetY); ctx.scale(scale, -scale)`:
the inverse of `screenToWorld`. -/
def worldToScreen (v : ViewState) (centerX centerY wx wy : ℚ) : ℚ × ℚ :=
  (wx * v.scale + centerX + v.offsetX, -wy * v.scale + centerY + v.offsetY)

/-- One wheel-zoom event (`onMouseWheel`): `zoomOut` is `e.deltaY > 0`.
The factor is `0.9` when zooming out and `1.1` when zooming in, the new
scale is clamped to `[0.1, 10]`, and the offset is recomputed so the world
point under the mouse stays under the mouse. -/
def onMouseWheel (zoomOut : Bool) (v : ViewState) (centerX centerY mouseX mouseY : ℚ) :
    ViewState :=
  let worldX := (mouseX - centerX - v.offsetX) / v.scale
  let worldY := -(mouseY - centerY - v.offsetY) / v.scale
  let zoomFactor : ℚ := if zoomOut then 9/10 else 11/10
  let newScale := max (1/10) (min (v.scale * zoomFactor) 10)
  { offsetX := mouseX - centerX - worldX * newScale
    offsetY := mouseY - centerY + worldY * newScale
    scale := newScale }

/-- One zoom event: direction plus the canvas-center and mouse coordinates
it was delivered at. -/
structure ZoomEvent where
  zoomOut : Bool
  centerX : ℚ
  centerY : ℚ
  mouseX : ℚ
  mouseY : ℚ
  deriving DecidableEq, Repr

/-- A sequence of wheel-zoom events applied in order. -/
def applyZoomEvents (evs : List ZoomEvent) (v : ViewState) : ViewState :=
  evs.foldl (fun w e => onMouseWheel e.zoomOut w e.centerX e.centerY e.mouseX e.mouseY) v

/-! ## Geometry utilities (hit-testing) -/

/-- `pointToSegmentDistance`, embedded as the *squared* distance: the source
computes `sqrt` and immediately compares with a bound, and for nonnegative
bounds `sqrt d < r ↔ d < r²`, so the squared form is exactly equivalent. -/
def pointToSegmentDistanceSq (px py x1 y1 x2 y2 : ℚ) : ℚ :=
  let dx := x2 - x1
  let dy := y2 - y1
  let lengthSq := dx * dx + dy * dy
  if lengthSq = 0 then
    (px - x1) ^ 2 + (py - y1) ^ 2
  else
    let t := ((px - x1) * dx + (py - y1) * dy) / lengthSq
    let t' := max 0 (min 1 t)
    let nearestX := x1 + t' * dx
    let nearestY := y1 + t' * dy
    (px - nearestX) ^ 2 + (py - nearestY) ^ 2

/-- Consecutive pairs of a polyline's points (the segments the source's
`for (i = 0; i < length - 1; i++)` loop visits). -/
def segmentPairs : List (ℚ × ℚ) → List ((ℚ × ℚ) × (ℚ × ℚ))
  | a :: b :: rest => (a, b) :: segmentPairs (b :: rest)
  | _ => []

/-- `isPointNearPolyline`: true when some segment's distance to the point is
below `radius`.  The source compares `sqrt distSq < radius`; since a real
square root is nonnegative this holds iff `0 < radius ∧ distSq < radius²`,
which is the comparison used here. -/
def isPointNearPolyline (px py : ℚ) (polyline : List (ℚ × ℚ)) (radius : ℚ) : Bool :=
  if polyline.length < 2 then false
  else
    decide (0 < radius) &&
      (segmentPairs polyline).any (fun s =>
        decide (pointToSegmentDistanceSq px py s.1.1 s.1.2 s.2.1 s.2.2 < radius ^ 2))

/-- The per-edge test of the ray-casting loop in `isPointInPolygon`, for
vertex `pi` with predecessor `pj`:
`((yi > py) !== (yj > py)) && (px < (xj - xi) * (py - yi) / (yj - yi) + xi)`. -/
def raycastEdge (px py : ℚ) (pi pj : ℚ × ℚ) : Bool :=
  (decide (py < pi.2) != decide (py < pj.2)) &&
    decide (px < (pj.1 - pi.1) * (py - pi.2) / (pj.2 - pi.2) + pi.1)

/-- `isPointInPolygon` (even-odd ray casting): each vertex `i` is paired with
its predecessor `j` (`j = n-1` for `i = 0`), and `inside` is toggled for
each crossing edge. -/
def isPointInPolygon (px py : ℚ) (polygon : List (ℚ × ℚ)) : Bool :=
  if polygon.length < 3 then false
  else
    match polygon.getLast? with
    | none => false
    | some lastPt =>
        (polygon.zip (lastPt :: polygon.dropLast)).foldl
          (fun inside pr => if raycastEdge px py pr.1 pr.2 then !inside else inside) false

/-- The query point expressed in an agent's local frame: translate to the
box center, then rotate by `-heading` (`isPointInVehicle`'s first half). -/
def localCoords (env : TrigEnv) (px py : ℚ) (st : TrackState) : ℚ × ℚ :=
  let dx := px - st.x
  let dy := py - st.y
  let c := env.cos (-st.heading)
  let s := env.sin (-st.heading)
  (dx * c - dy * s, dx * s + dy * c)

/-- `isPointInVehicle`: oriented-box containment with a 10% margin and the
defaults `length || 4`, `width || 2`. -/
def isPointInVehicle (env : TrigEnv) (px py : ℚ) (st : TrackState) : Bool :=
  let l := localCoords env px py st
  let halfLength := jsOr st.length 4 / 2 * (11/10)
  let halfWidth := jsOr st.width 2 / 2 * (11/10)
  decide (|l.1| ≤ halfLength) && decide (|l.2| ≤ halfWidth)

/-! ## Hit-test engine (`findObjectAtPosition`) -/

/-- The agent categories a pick result can name. -/
inductive AgentCat
  | sdc
  | vehicle
  | pedestrian
  | cyclist
  deriving DecidableEq, Repr

/-- The map-feature categories a pick result can name. -/
inductive FeatCat
  | roadLine
  | lane
  | roadEdge
  | crosswalk
  | stopSign
  | speedBump
  | driveway
  deriving DecidableEq, Repr

/-- The geometry payload carried by a picked map feature. -/
inductive FeatGeom
  | polyline (pts : List (ℚ × ℚ))
  | polygon (pts : List (ℚ × ℚ))
  | point (pos : ℚ × ℚ)
  deriving DecidableEq, Repr

/-- The discriminated result object `findObjectAtPosition` returns: an agent
result carries the track id and the dereferenced state, a map-feature
result carries the feature.  (The cosmetic `typeKo`/`color` strings are
omitted.) -/
inductive PickResult
  | agent (cat : AgentCat) (id : ℤ) (st : TrackState)
  | mapFeature (cat : FeatCat) (geom : FeatGeom)
  deriving DecidableEq, Repr

/-- A `for (x of list) if (p) return r;` loop: the first element mapped to
`some` wins. -/
def loopFirst (f : α → Option β) : List α → Option β
  | [] => none
  | a :: rest =>
    match f a with
    | some r => some r
    | none => loopFirst f rest

/-- The first `some` of a sequence of early-return blocks. -/
def firstSome (l : List (Option α)) : Option α :=
  loopFirst id l

/-- The body of each per-agent check in `findObjectAtPosition`:
`state && state.valid && isPointInVehicle(...)`. -/
def agentStateHit (env : TrigEnv) (px py : ℚ) (step : ℕ) (cat : AgentCat) (t : Track) :
    Option PickResult :=
  match t.states.get? step with
  | some st =>
      if st.valid && isPointInVehicle env px py st then some (.agent cat t.id st) else none
  | none => none

/-- The SDC block: `if (scenarioData.tracks.sdc && layerVisibility.sdc)`. -/
def sdcCheck (env : TrigEnv) (sc : Scenario) (vis : LayerVisibility) (step : ℕ)
    (px py : ℚ) : Option PickResult :=
  match sc.tracks.sdc with
  | some t => if vis.sdc then agentStateHit env px py step .sdc t else none
  | none => none

/-- One of the vehicle / pedestrian / cyclist blocks: a visibility-gated
first-match loop over the category's tracks. -/
def agentListCheck (env : TrigEnv) (visFlag : Bool) (tracks : List Track) (cat : AgentCat)
    (step : ℕ) (px py : ℚ) : Option PickResult :=
  if visFlag then loopFirst (agentStateHit env px py step cat) tracks else none

/-- A polyline-feature block (road lines, lanes, road edges): first feature
within `clickRadius` of the point. -/
def polylineCheck (visFlag : Bool) (feats : List PolylineFeature) (cat : FeatCat)
    (px py radius : ℚ) : Option PickResult :=
  if visFlag then
    loopFirst (fun f =>
      if isPointNearPolyline px py f.polyline radius then
        some (.mapFeature cat (.polyline f.polyline))
      else none) feats
  else none

/-- A polygon-feature block (crosswalks, speed bumps, driveways): first
polygon containing the point. -/
def polygonCheck (visFlag : Bool) (feats : List PolygonFeature) (cat : FeatCat)
    (px py : ℚ) : Option PickResult :=
  if visFlag then
    loopFirst (fun f =>
      if isPointInPolygon px py f.polygon then some (.mapFeature cat (.polygon f.polygon))
      else none) feats
  else none

/-- The stop-sign block: distance below the fixed radius `2.0`, embedded as
squared distance below `4`. -/
def stopSignCheck (visFlag : Bool) (signs : List PointFeature) (px py : ℚ) :
    Option PickResult :=
  if visFlag then
    loopFirst (fun sg =>
      if (px - sg.position.1) ^ 2 + (py - sg.position.2) ^ 2 < 4 then
        some (.mapFeature .stopSign (.point sg.position))
      else none) signs
  else none

/-- The eleven early-return blocks of `findObjectAtPosition`, in source
order: SDC, vehicles, pedestrians, cyclists, road lines, lanes, road edges,
crosswalks, stop signs, speed bumps, driveways.  `scale` feeds the
`clickRadius = 2.0 / viewState.scale` used by the polyline blocks. -/
def pickLayers (env : TrigEnv) (sc : Scenario) (vis : LayerVisibility) (step : ℕ)
    (scale px py : ℚ) : List (Option PickResult) :=
  [sdcCheck env sc vis step px py,
   agentListCheck env vis.vehicles sc.tracks.vehicles .vehicle step px py,
   agentListCheck env vis.pedestrians sc.tracks.pedestrians .pedestrian step px py,
   agentListCheck env vis.cyclists sc.tracks.cyclists .cyclist step px py,
   polylineCheck vis.road_lines sc.map_features.road_lines .roadLine px py (2 / scale),
   polylineCheck vis.lanes sc.map_features.lanes .lane px py (2 / scale),
   polylineCheck vis.road_edges sc.map_features.road_edges .roadEdge px py (2 / scale),
   polygonCheck vis.crosswalks sc.map_features.crosswalks .crosswalk px py,
   stopSignCheck vis.stop_signs sc.map_features.stop_signs px py,
   polygonCheck vis.speed_bumps sc.map_features.speed_bumps .speedBump px py,
   polygonCheck vis.driveways sc.map_features.driveways .driveway px py]

/-- `findObjectAtPosition(worldX, worldY)`: the blocks above tried in order,
first match wins, `null` (`none`) if nothing matches. -/
def findObjectAtPosition (env : TrigEnv) (sc : Scenario) (vis : LayerVisibility)
    (step : ℕ) (scale px py : ℚ) : Option PickResult :=
  firstSome (pickLayers env sc vis step scale px py)

/-! ## Layer renderer: agent boxes, trajectories, highlight -/

/-- The arguments one `drawVehicleBox` call receives (the geometry
dereferenced from a state when an agent is drawn). -/
structure DrawnBox where
  x : ℚ
  y : ℚ
  length : Option ℚ
  width : Option ℚ
  heading : ℚ
  deriving DecidableEq, Repr

/-- The box drawn for a state. -/
def boxOfState (st : TrackState) : DrawnBox :=
  ⟨st.x, st.y, st.length, st.width, st.heading⟩

/-- `drawAgents(type)`: one box per track whose state at the current step
exists and is valid; invalid or missing states are skipped. -/
def drawAgents (step : ℕ) (tracks : List Track) : List DrawnBox :=
  tracks.filterMap fun a =>
    match a.states.get? step with
    | some st => if st.valid then some (boxOfState st) else none
    | none => none

/-- `drawSDC()`: the SDC's box when its state at the current step exists and
is valid, nothing otherwise. -/
def drawSDC (step : ℕ) (sdc : Option Track) : List DrawnBox :=
  match sdc with
  | none => []
  | some t =>
    match t.states.get? step with
    | some st => if st.valid then [boxOfState st] else []
    | none => []

/-- The path commands `drawAgentTrajectory` emits. -/
inductive PathCmd
  | moveTo (x y : ℚ)
  | lineTo (x y : ℚ)
  deriving DecidableEq, Repr

/-- The loop of `drawAgentTrajectory`: walk the remaining states; a valid
state emits `moveTo` when the path has not `started` yet and `lineTo`
afterwards; invalid states emit nothing and leave `started` untouched. -/
def trajectoryLoop (started : Bool) : List TrackState → List PathCmd
  | [] => []
  | st :: rest =>
    if st.valid then
      (if started then PathCmd.lineTo st.x st.y else PathCmd.moveTo st.x st.y) ::
        trajectoryLoop true rest
    else trajectoryLoop started rest

/-- `drawAgentTrajectory(agent, color)`: nothing when the state array is
empty or the current-step state is missing/invalid, otherwise the path
commands produced by looping from the current step to the end. -/
def drawAgentTrajectory (step : ℕ) (states : List TrackState) : List PathCmd :=
  if states.isEmpty then []
  else
    match states.get? step with
    | some st => if st.valid then trajectoryLoop false (states.drop step) else []
    | none => []

/-- A `strokeRect(x, y, w, h)` call. -/
structure Rect where
  x : ℚ
  y : ℚ
  w : ℚ
  h : ℚ
  deriving DecidableEq, Repr

/-- The agent branch of `drawSelectedHighlight`: nothing when the carried
state is invalid; otherwise the object-frame rectangle
`strokeRect(-length/2 - 0.3, -width/2 - 0.3, length + 0.6, width + 0.6)`
with the defaults `length || 4`, `width || 2`. -/
def agentHighlightRect (st : TrackState) : Option Rect :=
  if st.valid then
    let length := jsOr st.length 4
    let width := jsOr st.width 2
    some ⟨-length / 2 - 3/10, -width / 2 - 3/10, length + 6/10, width + 6/10⟩
  else none

/-! ## Playback controller and scenario navigator

The module-level mutable state the playback and navigation functions touch
is gathered into one record; the timer itself is represented by the
`isPlaying` flag (starting playback installs the interval and sets the
flag, stopping clears both), and a fired `alert(...)` is recorded in
`notice`. -/

/-- Playback modes (`playbackMode`). -/
inductive Mode
  | once
  | loop
  | continuous
  deriving DecidableEq, Repr

/-- The mutable application state read and written by `setStep`,
`startPlayback` / `stopPlayback`, the playback tick, `resetViewport` and
the scenario-loading functions. -/
structure AppState where
  scenario : Option Scenario
  maxStep : ℕ
  currentStep : ℕ
  scenarioIndex : ℕ
  totalScenarios : ℕ
  view : ViewState
  selectedObject : Option PickResult
  hoveredObject : Option PickResult
  isPlaying : Bool
  notice : Option String
  deriving DecidableEq, Repr

/-- The text of `alert('마지막 시나리오입니다.')` — "this is the last
scenario". -/
def lastScenarioMsg : String := "마지막 시나리오입니다."

/-- The text of `alert('첫 시나리오입니다.')` — "this is the first
scenario". -/
def firstScenarioMsg : String := "첫 시나리오입니다."

/-- `setStep(step)`: `currentStep = Math.max(0, Math.min(step, maxStep))`. -/
def setStep (step : ℤ) (s : AppState) : AppState :=
  { s with currentStep := (max 0 (min step (s.maxStep : ℤ))).toNat }

/-- `startPlayback()`'s effect on the state: the playing flag goes up (and
the interval timer is installed). -/
def startPlayback (s : AppState) : AppState :=
  { s with isPlaying := true }

/-- `stopPlayback()`: the playing flag goes down and the timer is
cleared. -/
def stopPlayback (s : AppState) : AppState :=
  { s with isPlaying := false }

/-- `resetViewport()`: when a scenario with an SDC track is loaded and the
SDC's state *at the current step index* exists and is valid, recenter at
scale 3 on it (`scale = 3; offsetX = -x*scale; offsetY = y*scale`);
otherwise leave the viewport untouched. -/
def resetViewport (s : AppState) : AppState :=
  match s.scenario with
  | none => s
  | some sc =>
    match sc.tracks.sdc with
    | none => s
    | some sdc =>
      match sdc.states.get? s.currentStep with
      | some st =>
          if st.valid then
            { s with view := { offsetX := -st.x * 3, offsetY := st.y * 3, scale := 3 } }
          else s
      | none => s

/-- The success branch of `loadScenario(index)`: install the new scenario
data, set `maxStep` from the timestamp count, record the index, reset the
viewport, then `setStep(0)`. -/
def loadScenario (sc : Scenario) (index : ℕ) (s : AppState) : AppState :=
  setStep 0 (resetViewport { s with
    scenario := some sc
    maxStep := sc.timestamps.length - 1
    scenarioIndex := index })

/-- The success branch of `loadScenarioInternal(index, autoPlay)`: as
`loadScenario`, then `startPlayback()` when `autoPlay` is set. -/
def loadScenarioInternal (sc : Scenario) (index : ℕ) (autoPlay : Bool) (s : AppState) :
    AppState :=
  if autoPlay then startPlayback (loadScenario sc index s) else loadScenario sc index s

/-- `loadNextScenario(autoPlay)`: a no-op apart from the "last scenario"
alert when `currentScenarioIndex >= totalScenarios - 1`, otherwise load the
scenario at the next index (`fetch` models the successful
`/api/scenario/<index>` response). -/
def loadNextScenario (fetch : ℕ → Scenario) (autoPlay : Bool) (s : AppState) : AppState :=
  if s.totalScenarios - 1 ≤ s.scenarioIndex then { s with notice := some lastScenarioMsg }
  else loadScenarioInternal (fetch (s.scenarioIndex + 1)) (s.scenarioIndex + 1) autoPlay s

/-- `loadPreviousScenario()`: a no-op apart from the "first scenario" alert
when `currentScenarioIndex <= 0`, otherwise load the previous index. -/
def loadPreviousScenario (fetch : ℕ → Scenario) (s : AppState) : AppState :=
  if s.scenarioIndex = 0 then { s with notice := some firstScenarioMsg }
  else loadScenarioInternal (fetch (s.scenarioIndex - 1)) (s.scenarioIndex - 1) false s

/-- One firing of the interval callback installed by `startPlayback()`:
below the last step, advance by one; at the last step, behave per mode —
`once` stops, `loop` rewinds to step 0, `continuous` stops and chains to
the next scenario with auto-play. -/
def playbackTick (mode : Mode) (fetch : ℕ → Scenario) (s : AppState) : AppState :=
  if s.maxStep ≤ s.currentStep then
    match mode with
    | .once => stopPlayback s
    | .loop => setStep 0 s
    | .continuous => loadNextScenario fetch true (stopPlayback s)
  else
    setStep ((s.currentStep : ℤ) + 1) s

/-! ## Specification-side helpers

Declarative descriptions used to state the claims: the visibility flag and
priority rank a pick result belongs to, and the path shape the trajectory
drawer produces. -/

/-- The visibility flag guarding an agent category. -/
def agentVisible (vis : LayerVisibility) : AgentCat → Bool
  | .sdc => vis.sdc
  | .vehicle => vis.vehicles
  | .pedestrian => vis.pedestrians
  | .cyclist => vis.cyclists

/-- The visibility flag guarding a map-feature category. -/
def featVisible (vis : LayerVisibility) : FeatCat → Bool
  | .roadLine => vis.road_lines
  | .lane => vis.lanes
  | .roadEdge => vis.road_edges
  | .crosswalk => vis.crosswalks
  | .stopSign => vis.stop_signs
  | .speedBump => vis.speed_bumps
  | .driveway => vis.driveways

/-- The position of a result's layer in the hit-test priority order:
SDC → vehicles → pedestrians → cyclists → road lines → lanes → road edges
→ crosswalks → stop signs → speed bumps → driveways. -/
def pickRank : PickResult → ℕ
  | .agent .sdc _ _ => 0
  | .agent .vehicle _ _ => 1
  | .agent .pedestrian _ _ => 2
  | .agent .cyclist _ _ => 3
  | .mapFeature .roadLine _ => 4
  | .mapFeature .lane _ => 5
  | .mapFeature .roadEdge _ => 6
  | .mapFeature .crosswalk _ => 7
  | .mapFeature .stopSign _ => 8
  | .mapFeature .speedBump _ => 9
  | .mapFeature .driveway _ => 10

/-- The positions of the valid states of a state list, in order. -/
def validPoints (l : List TrackState) : List (ℚ × ℚ) :=
  (l.filter (·.valid)).map fun st => (st.x, st.y)

/-- One continuous path through a point list: `moveTo` the first point,
`lineTo` each subsequent one. -/
def pathThrough : List (ℚ × ℚ) → List PathCmd
  | [] => []
  | p :: ps => PathCmd.moveTo p.1 p.2 :: ps.map fun q => PathCmd.lineTo q.1 q.2

/-! ## Concrete data for witnesses and counterexamples -/

/-- A trig environment agreeing with `Math.cos`/`Math.sin` at `0`. -/
def envW : TrigEnv := ⟨fun _ => 1, fun _ => 0⟩

/-- A valid state at the origin. -/
def stOrigin : TrackState := ⟨0, 0, 0, some 4, some 2, true⟩

/-- A valid state at `(10, 0)`. -/
def stTen : TrackState := ⟨10, 0, 0, some 4, some 2, true⟩

/-- An invalid state whose coordinates overlap the origin. -/
def stInvalidOrigin : TrackState := ⟨0, 0, 0, some 4, some 2, false⟩

/-- A valid state at `(2, 0)`. -/
def stTwo : TrackState := ⟨2, 0, 0, some 4, some 2, true⟩

/-- An SDC track valid at both steps: origin at step 0, `(10,0)` at step 1. -/
def sdcTrackW : Track := ⟨7, [stOrigin, stTen]⟩

/-- A vehicle track valid at step 0 at the origin. -/
def vehicleTrackW : Track := ⟨3, [stOrigin, stTen]⟩

/-- A vehicle track whose state at step 0 is invalid but overlaps the origin. -/
def vehicleTrackInvalid : Track := ⟨4, [stInvalidOrigin, stTen]⟩

/-- An empty map-feature set. -/
def emptyMapFeatures : MapFeatures := ⟨[], [], [], [], [], [], []⟩

/-- A lane polyline running through the origin. -/
def laneW : PolylineFeature := ⟨[(-5, 0), (5, 0)]⟩

/-- Map features holding just the one lane through the origin. -/
def mapLaneOnly : MapFeatures := { emptyMapFeatures with lanes := [laneW] }

/-- A scenario with an SDC and a lane, both passing through the origin. -/
def scW : Scenario := ⟨[0, 1/10], ⟨some sdcTrackW, [], [], []⟩, mapLaneOnly⟩

/-- A scenario with one vehicle and a lane, both through the origin, and no
SDC. -/
def scVehicle : Scenario := ⟨[0, 1/10], ⟨none, [vehicleTrackW], [], []⟩, mapLaneOnly⟩

/-- A scenario whose only agent has an invalid state at step 0 overlapping
the origin. -/
def scInvalid : Scenario := ⟨[0, 1/10], ⟨none, [vehicleTrackInvalid], [], []⟩, emptyMapFeatures⟩

/-- A scenario whose SDC track's state at step 0 is invalid. -/
def scInvalidSdc : Scenario :=
  ⟨[0, 1/10], ⟨some vehicleTrackInvalid, [], [], []⟩, emptyMapFeatures⟩

/-- All layers visible. -/
def visAll : LayerVisibility :=
  ⟨true, true, true, true, true, true, true, true, true, true, true, true, true, true, true⟩

/-- The identity-ish viewport used in witnesses. -/
def viewW : ViewState := ⟨0, 0, 1⟩

/-- A previously picked object, standing for a live selection/hover. -/
def pickedW : PickResult := .agent .vehicle 3 stTen

/-- A pre-load application state sitting at step 1 of a previous scenario
with a live selection and hover. -/
def preState : AppState :=
  { scenario := some scVehicle
    maxStep := 1
    currentStep := 1
    scenarioIndex := 0
    totalScenarios := 3
    view := viewW
    selectedObject := some pickedW
    hoveredObject := some pickedW
    isPlaying := false
    notice := none }

/-- A playing state parked at its last step. -/
def playingAtEnd : AppState :=
  { scenario := some scW
    maxStep := 1
    currentStep := 1
    scenarioIndex := 0
    totalScenarios := 3
    view := viewW
    selectedObject := none
    hoveredObject := none
    isPlaying := true
    notice := none }

/-- A fetch function returning the vehicle scenario for every index. -/
def fetchW : ℕ → Scenario := fun _ => scVehicle

/-- A valid state with a missing length and a zero width (both falsy). -/
def stNoDims : TrackState := ⟨1, 2, 0, none, some 0, true⟩

/-! ## Generic lemmas about the first-match loops -/

theorem loopFirst_eq_some {f : α → Option β} {l : List α} {r : β}
    (h : loopFirst f l = some r) : ∃ a ∈ l, f a = some r := by
  induction l with
  | nil => simp [loopFirst] at h
  | cons a rest ih =>
    rw [loopFirst] at h
    cases hfa : f a with
    | some b =>
      rw [hfa] at h
      exact ⟨a, List.mem_cons_self a rest, by rw [hfa, Option.some_inj.mp h]⟩
    | none =>
      rw [hfa] at h
      obtain ⟨x, hx, hfx⟩ := ih h
      exact ⟨x, List.mem_cons_of_mem a hx, hfx⟩

theorem loopFirst_ne_none {f : α → Option β} {l : List α} {a : α} {b : β}
    (ha : a ∈ l) (hfa : f a = some b) : ∃ r, loopFirst f l = some r := by
  induction l with
  | nil => cases ha
  | cons x rest ih =>
    rw [loopFirst]
    cases hfx : f x with
    | some r => exact ⟨r, rfl⟩
    | none =>
      rcases List.mem_cons.mp ha with rfl | ha'
      · rw [hfx] at hfa; cases hfa
      · exact ih ha'

theorem firstSome_eq_some {l : List (Option α)} {r : α} (h : firstSome l = some r) :
    ∃ i, l.get? i = some (some r) ∧ ∀ j < i, l.get? j = some none := by
  induction l with
  | nil => simp [firstSome, loopFirst] at h
  | cons o rest ih =>
    cases o with
    | some b =>
      have hb : b = r := by simpa [firstSome, loopFirst] using h
      exact ⟨0, by simp [hb], by intro j hj; omega⟩
    | none =>
      have h' : firstSome rest = some r := by simpa [firstSome, loopFirst] using h
      obtain ⟨i, h1, h2⟩ := ih h'
      refine ⟨i + 1, by simpa using h1, ?_⟩
      intro j hj
      cases j with
      | zero => rfl
      | succ j' => simpa using h2 j' (by omega)

theorem firstSome_eq_none {l : List (Option α)} (h : firstSome l = none) :
    ∀ o ∈ l, o = none := by
  induction l with
  | nil => intro o ho; cases ho
  | cons o rest ih =>
    intro x hx
    cases o with
    | some b => simp [firstSome, loopFirst] at h
    | none =>
      rcases List.mem_cons.mp hx with rfl | hx'
      · rfl
      · exact ih (by simpa [firstSome, loopFirst] using h) x hx'

/-! ## C6 / C7 / C8: wheel zoom -/

/-- The scale produced by a zoom-in event, before/after clamping. -/
theorem onMouseWheel_scale_in (v : ViewState) (cX cY mx my : ℚ) :
    (onMouseWheel false v cX cY mx my).scale = max (1/10) (min (v.scale * (11/10)) 10) := rfl

/-- The scale produced by a zoom-out event, before/after clamping. -/
theorem onMouseWheel_scale_out (v : ViewState) (cX cY mx my : ℚ) :
    (onMouseWheel true v cX cY mx my).scale = max (1/10) (min (v.scale * (9/10)) 10) := rfl

/-- C6 counterexample: with scale `1` (well inside the clamp bounds), one
zoom-out multiplies the scale by `0.9`, not `1/1.1`, and a zoom-in followed
by a zoom-out lands on `0.99`, not back at `1`. -/
theorem zoom_factor_counterexample :
    (onMouseWheel true viewW 0 0 0 0).scale = 9/10 ∧
    (onMouseWheel true viewW 0 0 0 0).scale ≠ 1 / (11/10) ∧
    (onMouseWheel true (onMouseWheel false viewW 0 0 0 0) 0 0 0 0).scale = 99/100 ∧
    (onMouseWheel true (onMouseWheel false viewW 0 0 0 0) 0 0 0 0).scale ≠ viewW.scale := by
  have h1 : (onMouseWheel true viewW 0 0 0 0).scale = 9/10 := by
    rw [onMouseWheel_scale_out]
    norm_num [viewW, max_def, min_def]
  have h2 : (onMouseWheel true (onMouseWheel false viewW 0 0 0 0) 0 0 0 0).scale = 99/100 := by
    rw [onMouseWheel_scale_out, onMouseWheel_scale_in]
    norm_num [viewW, max_def, min_def]
  refine ⟨h1, ?_, h2, ?_⟩
  · rw [h1]; norm_num
  · rw [h2]; norm_num [viewW]

/-- C6 (amended): each wheel event multiplies the scale by exactly `1.1`
(zoom-in) or exactly `0.9` (zoom-out) while the clamp does not bind, so a
zoom-in followed by a zoom-out multiplies the scale by `0.99` rather than
restoring it. -/
theorem zoom_factor_amended (v : ViewState) (cX cY mx my cX' cY' mx' my' : ℚ)
    (hlow : 1/10 ≤ v.scale * (9/10)) (hhigh : v.scale * (11/10) ≤ 10) :
    (onMouseWheel false v cX cY mx my).scale = v.scale * (11/10) ∧
    (onMouseWheel true v cX cY mx my).scale = v.scale * (9/10) ∧
    (onMouseWheel true (onMouseWheel false v cX cY mx my) cX' cY' mx' my').scale
      = v.scale * (99/100) := by
  have hpos : 0 < v.scale := by nlinarith
  have hin : (onMouseWheel false v cX cY mx my).scale = v.scale * (11/10) := by
    rw [onMouseWheel_scale_in, min_eq_left hhigh, max_eq_right (by nlinarith)]
  refine ⟨hin, ?_, ?_⟩
  · rw [onMouseWheel_scale_out, min_eq_left (by nlinarith), max_eq_right hlow]
  · rw [onMouseWheel_scale_out, hin, min_eq_left (by nlinarith),
      max_eq_right (by nlinarith)]
    ring

/-- C6 amended witness at scale 1. -/
theorem zoom_factor_amended_witness :
    (onMouseWheel false viewW 0 0 0 0).scale = viewW.scale * (11/10) ∧
    (onMouseWheel true viewW 0 0 0 0).scale = viewW.scale * (9/10) ∧
    (onMouseWheel true (onMouseWheel false viewW 0 0 0 0) 0 0 0 0).scale
      = viewW.scale * (99/100) :=
  zoom_factor_amended viewW 0 0 0 0 0 0 0 0 (by norm_num [viewW]) (by norm_num [viewW])

/-- C7: after a wheel zoom anchored at screen point `(sx, sy)`, the world
point that mapped to `(sx, sy)` before the event maps to `(sx, sy)` again
after it — exactly, in the rational model — including when the scale clamp
limits the applied factor. -/
theorem zoom_anchor_invariance (v : ViewState) (zoomOut : Bool) (centerX centerY sx sy : ℚ)
    (hscale : 0 < v.scale) :
    worldToScreen (onMouseWheel zoomOut v centerX centerY sx sy) centerX centerY
        (screenToWorld v centerX centerY sx sy).1 (screenToWorld v centerX centerY sx sy).2
      = (sx, sy) := by
  simp only [onMouseWheel, screenToWorld, worldToScreen, Prod.mk.injEq]
  constructor <;> ring

/-- C7 witness: a concrete anchored zoom, including one where the clamp
binds (scale `10` zooming in stays at `10`). -/
theorem zoom_anchor_invariance_witness :
    worldToScreen (onMouseWheel false ⟨5, -3, 10⟩ 400 300 120 80) 400 300
        (screenToWorld ⟨5, -3, 10⟩ 400 300 120 80).1
        (screenToWorld ⟨5, -3, 10⟩ 400 300 120 80).2
      = (120, 80) :=
  zoom_anchor_invariance ⟨5, -3, 10⟩ false 400 300 120 80 (by norm_num)

/-- C8: starting from any scale in `[0.1, 10]`, an arbitrary sequence of
wheel-zoom events leaves the scale in `[0.1, 10]`. -/
theorem scale_clamp_invariant (evs : List ZoomEvent) (v : ViewState)
    (h1 : 1/10 ≤ v.scale) (h2 : v.scale ≤ 10) :
    1/10 ≤ (applyZoomEvents evs v).scale ∧ (applyZoomEvents evs v).scale ≤ 10 := by
  induction evs generalizing v with
  | nil => exact ⟨h1, h2⟩
  | cons e rest ih =>
    have hstep₁ : 1/10 ≤ (onMouseWheel e.zoomOut v e.centerX e.centerY e.mouseX e.mouseY).scale :=
      le_max_left _ _
    have hstep₂ : (onMouseWheel e.zoomOut v e.centerX e.centerY e.mouseX e.mouseY).scale ≤ 10 :=
      max_le (by norm_num) (min_le_right _ _)
    simpa [applyZoomEvents] using
      ih (onMouseWheel e.zoomOut v e.centerX e.centerY e.mouseX e.mouseY) hstep₁ hstep₂

/-- C8 witness: ten zoom-outs from scale `0.1` stay at the lower clamp. -/
theorem scale_clamp_invariant_witness :
    1/10 ≤ (applyZoomEvents (List.replicate 10 ⟨true, 0, 0, 0, 0⟩) ⟨0, 0, 1/10⟩).scale ∧
    (applyZoomEvents (List.replicate 10 ⟨true, 0, 0, 0, 0⟩) ⟨0, 0, 1/10⟩).scale ≤ 10 :=
  scale_clamp_invariant (List.replicate 10 ⟨true, 0, 0, 0, 0⟩) ⟨0, 0, 1/10⟩
    (by norm_num) (by norm_num)

/-! ## Field-preservation lemmas for the state-machine functions -/

theorem resetViewport_scenario (s : AppState) : (resetViewport s).scenario = s.scenario := by
  unfold resetViewport
  repeat' split
  all_goals rfl

theorem resetViewport_maxStep (s : AppState) : (resetViewport s).maxStep = s.maxStep := by
  unfold resetViewport
  repeat' split
  all_goals rfl

theorem resetViewport_currentStep (s : AppState) :
    (resetViewport s).currentStep = s.currentStep := by
  unfold resetViewport
  repeat' split
  all_goals rfl

theorem resetViewport_scenarioIndex (s : AppState) :
    (resetViewport s).scenarioIndex = s.scenarioIndex := by
  unfold resetViewport
  repeat' split
  all_goals rfl

theorem resetViewport_totalScenarios (s : AppState) :
    (resetViewport s).totalScenarios = s.totalScenarios := by
  unfold resetViewport
  repeat' split
  all_goals rfl

theorem resetViewport_selectedObject (s : AppState) :
    (resetViewport s).selectedObject = s.selectedObject := by
  unfold resetViewport
  repeat' split
  all_goals rfl

theorem resetViewport_hoveredObject (s : AppState) :
    (resetViewport s).hoveredObject = s.hoveredObject := by
  unfold resetViewport
  repeat' split
  all_goals rfl

theorem resetViewport_isPlaying (s : AppState) : (resetViewport s).isPlaying = s.isPlaying := by
  unfold resetViewport
  repeat' split
  all_goals rfl

theorem resetViewport_notice (s : AppState) : (resetViewport s).notice = s.notice := by
  unfold resetViewport
  repeat' split
  all_goals rfl

/-- When the loaded scenario's SDC state at the (stale) current step index is
valid, `resetViewport` recenters on it at scale 3. -/
theorem resetViewport_view_of_valid {s : AppState} {sc : Scenario} {sdc : Track}
    {st : TrackState} (h1 : s.scenario = some sc) (h2 : sc.tracks.sdc = some sdc)
    (h3 : sdc.states.get? s.currentStep = some st) (h4 : st.valid = true) :
    (resetViewport s).view = ⟨-st.x * 3, st.y * 3, 3⟩ := by
  obtain ⟨sce, ms, cs, si, ts, vw, so, ho, ip, no⟩ := s
  have h1' : sce = some sc := h1
  subst h1'
  simp only [resetViewport, h2]
  have h3' : sdc.states.get? cs = some st := h3
  simp only [h3']
  simp [h4]

/-- Without an SDC track, `resetViewport` leaves the viewport untouched. -/
theorem resetViewport_view_no_sdc {s : AppState} {sc : Scenario} (h1 : s.scenario = some sc)
    (h2 : sc.tracks.sdc = none) : (resetViewport s).view = s.view := by
  obtain ⟨sce, ms, cs, si, ts, vw, so, ho, ip, no⟩ := s
  have h1' : sce = some sc := h1
  subst h1'
  simp [resetViewport, h2]

/-- When the SDC has no state at the (stale) current step index — e.g. the
new scenario is shorter than the old step — `resetViewport` leaves the
viewport untouched. -/
theorem resetViewport_view_missing {s : AppState} {sc : Scenario} {sdc : Track}
    (h1 : s.scenario = some sc) (h2 : sc.tracks.sdc = some sdc)
    (h3 : sdc.states.get? s.currentStep = none) : (resetViewport s).view = s.view := by
  obtain ⟨sce, ms, cs, si, ts, vw, so, ho, ip, no⟩ := s
  have h1' : sce = some sc := h1
  subst h1'
  simp only [resetViewport, h2]
  have h3' : sdc.states.get? cs = none := h3
  simp only [h3']

/-- When the SDC state at the (stale) current step index is invalid,
`resetViewport` leaves the viewport untouched. -/
theorem resetViewport_view_invalid {s : AppState} {sc : Scenario} {sdc : Track}
    {st : TrackState} (h1 : s.scenario = some sc) (h2 : sc.tracks.sdc = some sdc)
    (h3 : sdc.states.get? s.currentStep = some st) (h4 : st.valid = false) :
    (resetViewport s).view = s.view := by
  obtain ⟨sce, ms, cs, si, ts, vw, so, ho, ip, no⟩ := s
  have h1' : sce = some sc := h1
  subst h1'
  simp only [resetViewport, h2]
  have h3' : sdc.states.get? cs = some st := h3
  simp only [h3']
  simp [h4]

/-- `setStep` only changes `currentStep`, clamping it to `[0, maxStep]`. -/
theorem setStep_currentStep (z : ℤ) (s : AppState) :
    (setStep z s).currentStep = (max 0 (min z (s.maxStep : ℤ))).toNat := rfl

theorem setStep_scenario (z : ℤ) (s : AppState) : (setStep z s).scenario = s.scenario := rfl

theorem setStep_maxStep (z : ℤ) (s : AppState) : (setStep z s).maxStep = s.maxStep := rfl

theorem setStep_scenarioIndex (z : ℤ) (s : AppState) :
    (setStep z s).scenarioIndex = s.scenarioIndex := rfl

theorem setStep_view (z : ℤ) (s : AppState) : (setStep z s).view = s.view := rfl

theorem setStep_selectedObject (z : ℤ) (s : AppState) :
    (setStep z s).selectedObject = s.selectedObject := rfl

theorem setStep_hoveredObject (z : ℤ) (s : AppState) :
    (setStep z s).hoveredObject = s.hoveredObject := rfl

theorem setStep_isPlaying (z : ℤ) (s : AppState) : (setStep z s).isPlaying = s.isPlaying := rfl

theorem setStep_notice (z : ℤ) (s : AppState) : (setStep z s).notice = s.notice := rfl

/-- `setStep` as a record update, once the clamp value is computed. -/
theorem setStep_eq (z : ℤ) (s : AppState) {n : ℕ}
    (h : (max 0 (min z (s.maxStep : ℤ))).toNat = n) :
    setStep z s = { s with currentStep := n } := by
  rw [setStep, h]

theorem startPlayback_isPlaying (s : AppState) : (startPlayback s).isPlaying = true := rfl

theorem startPlayback_currentStep (s : AppState) :
    (startPlayback s).currentStep = s.currentStep := rfl

theorem startPlayback_scenarioIndex (s : AppState) :
    (startPlayback s).scenarioIndex = s.scenarioIndex := rfl

theorem startPlayback_scenario (s : AppState) : (startPlayback s).scenario = s.scenario := rfl

theorem startPlayback_notice (s : AppState) : (startPlayback s).notice = s.notice := rfl

/-- The fields of a freshly loaded scenario state. -/
theorem loadScenario_currentStep (sc : Scenario) (index : ℕ) (s : AppState) :
    (loadScenario sc index s).currentStep = 0 := by
  rw [loadScenario, setStep_currentStep]
  omega

theorem loadScenario_scenario (sc : Scenario) (index : ℕ) (s : AppState) :
    (loadScenario sc index s).scenario = some sc := by
  rw [loadScenario, setStep_scenario, resetViewport_scenario]

theorem loadScenario_maxStep (sc : Scenario) (index : ℕ) (s : AppState) :
    (loadScenario sc index s).maxStep = sc.timestamps.length - 1 := by
  rw [loadScenario, setStep_maxStep, resetViewport_maxStep]

theorem loadScenario_scenarioIndex (sc : Scenario) (index : ℕ) (s : AppState) :
    (loadScenario sc index s).scenarioIndex = index := by
  rw [loadScenario, setStep_scenarioIndex, resetViewport_scenarioIndex]

theorem loadScenario_selectedObject (sc : Scenario) (index : ℕ) (s : AppState) :
    (loadScenario sc index s).selectedObject = s.selectedObject := by
  rw [loadScenario, setStep_selectedObject, resetViewport_selectedObject]

theorem loadScenario_hoveredObject (sc : Scenario) (index : ℕ) (s : AppState) :
    (loadScenario sc index s).hoveredObject = s.hoveredObject := by
  rw [loadScenario, setStep_hoveredObject, resetViewport_hoveredObject]

theorem loadScenario_notice (sc : Scenario) (index : ℕ) (s : AppState) :
    (loadScenario sc index s).notice = s.notice := by
  rw [loadScenario, setStep_notice, resetViewport_notice]

theorem loadScenario_view (sc : Scenario) (index : ℕ) (s : AppState) :
    (loadScenario sc index s).view =
      (resetViewport { s with
        scenario := some sc
        maxStep := sc.timestamps.length - 1
        scenarioIndex := index }).view := by
  rw [loadScenario, setStep_view]

/-! ## C3: playback tick -/

/-- C3: one firing of the playback timer while `Playing`: below the last
step the step advances by exactly one; at the last step, `once` stops with
the step still at the end, `loop` rewinds to step 0 and keeps playing,
`continuous` at the last scenario stays stopped and raises the
"last scenario" notice, and `continuous` otherwise chains to the next
scenario, playing from step 0. -/
theorem playback_tick_spec (mode : Mode) (fetch : ℕ → Scenario) (s : AppState)
    (hplay : s.isPlaying = true) (hle : s.currentStep ≤ s.maxStep) :
    (s.currentStep < s.maxStep →
       playbackTick mode fetch s = { s with currentStep := s.currentStep + 1 }) ∧
    (s.currentStep = s.maxStep →
       (mode = .once → playbackTick mode fetch s = { s with isPlaying := false }) ∧
       (mode = .loop → playbackTick mode fetch s = { s with currentStep := 0 }) ∧
       (mode = .continuous →
          (s.totalScenarios - 1 ≤ s.scenarioIndex →
             playbackTick mode fetch s =
               { s with isPlaying := false, notice := some lastScenarioMsg }) ∧
          (s.scenarioIndex < s.totalScenarios - 1 →
             (playbackTick mode fetch s).isPlaying = true ∧
             (playbackTick mode fetch s).currentStep = 0 ∧
             (playbackTick mode fetch s).scenarioIndex = s.scenarioIndex + 1 ∧
             (playbackTick mode fetch s).scenario = some (fetch (s.scenarioIndex + 1)) ∧
             (playbackTick mode fetch s).notice = s.notice))) := by
  constructor
  · intro hlt
    unfold playbackTick
    rw [if_neg (by omega)]
    exact setStep_eq _ _ (by omega)
  · intro heq
    refine ⟨?_, ?_, ?_⟩
    · rintro rfl
      unfold playbackTick
      rw [if_pos (by omega)]
      rfl
    · rintro rfl
      unfold playbackTick
      rw [if_pos (by omega)]
      exact setStep_eq _ _ (by omega)
    · rintro rfl
      unfold playbackTick
      rw [if_pos (by omega)]
      constructor
      · intro hlast
        unfold loadNextScenario
        rw [if_pos (show (stopPlayback s).totalScenarios - 1 ≤ (stopPlayback s).scenarioIndex
          from hlast)]
        rfl
      · intro hnext
        unfold loadNextScenario
        rw [if_neg (show ¬((stopPlayback s).totalScenarios - 1 ≤ (stopPlayback s).scenarioIndex)
          from by simp only [stopPlayback]; omega)]
        unfold loadScenarioInternal
        rw [if_pos rfl]
        refine ⟨startPlayback_isPlaying _, ?_, ?_, ?_, ?_⟩
        · rw [startPlayback_currentStep, loadScenario_currentStep]
        · rw [startPlayback_scenarioIndex, loadScenario_scenarioIndex]
          rfl
        · rw [startPlayback_scenario, loadScenario_scenario]
          rfl
        · rw [startPlayback_notice, loadScenario_notice]
          rfl

/-- C3 witness: a playing state at its last step in `loop` mode rewinds to
step 0 and keeps playing. -/
theorem playback_tick_spec_witness :
    playbackTick .loop fetchW playingAtEnd = { playingAtEnd with currentStep := 0 } :=
  ((playback_tick_spec .loop fetchW playingAtEnd rfl (by norm_num [playingAtEnd])).2
    rfl).2.1 rfl

/-! ## C9: navigation at the bounds -/

/-- C9: requesting the next scenario at the last index, or the previous
scenario at the first index, changes nothing but the user-visible notice:
scenario data, scenario index, current step and viewport all stay as they
were. -/
theorem navigation_boundary_noop (fetch : ℕ → Scenario) (autoPlay : Bool) (s : AppState) :
    (s.scenarioIndex = s.totalScenarios - 1 →
       loadNextScenario fetch autoPlay s = { s with notice := some lastScenarioMsg } ∧
       (loadNextScenario fetch autoPlay s).scenario = s.scenario ∧
       (loadNextScenario fetch autoPlay s).scenarioIndex = s.scenarioIndex ∧
       (loadNextScenario fetch autoPlay s).currentStep = s.currentStep ∧
       (loadNextScenario fetch autoPlay s).view = s.view) ∧
    (s.scenarioIndex = 0 →
       loadPreviousScenario fetch s = { s with notice := some firstScenarioMsg } ∧
       (loadPreviousScenario fetch s).scenario = s.scenario ∧
       (loadPreviousScenario fetch s).scenarioIndex = s.scenarioIndex ∧
       (loadPreviousScenario fetch s).currentStep = s.currentStep ∧
       (loadPreviousScenario fetch s).view = s.view) := by
  constructor
  · intro hlast
    have h : loadNextScenario fetch autoPlay s = { s with notice := some lastScenarioMsg } := by
      rw [loadNextScenario, if_pos (by omega)]
    exact ⟨h, by rw [h], by rw [h], by rw [h], by rw [h]⟩
  · intro hfirst
    have h : loadPreviousScenario fetch s = { s with notice := some firstScenarioMsg } := by
      rw [loadPreviousScenario, if_pos hfirst]
    exact ⟨h, by rw [h], by rw [h], by rw [h], by rw [h]⟩

/-- C9 witness: at index 2 of 3 scenarios, `loadNextScenario` only raises
the notice. -/
theorem navigation_boundary_noop_witness :
    loadNextScenario fetchW false { preState with scenarioIndex := 2 }
      = { preState with scenarioIndex := 2, notice := some lastScenarioMsg } :=
  ((navigation_boundary_noop fetchW false { preState with scenarioIndex := 2 }).1
    (by norm_num [preState])).1

/-! ## C4: post-state of a scenario load -/

/-- C4 counterexample: loading a scenario while the previous scenario sat at
step 1 recenters the viewport on the SDC's step-1 position `(10, 0)`
(offset `-30`), not its step-0 position `(0, 0)` (offset `0`), and the
selected/hovered objects survive the load instead of being reset. -/
theorem scenario_load_counterexample :
    scW.tracks.sdc = some sdcTrackW ∧
    sdcTrackW.states.get? 0 = some stOrigin ∧
    stOrigin.valid = true ∧
    -stOrigin.x * 3 = 0 ∧
    (loadScenario scW 1 preState).view.offsetX = -30 ∧
    (loadScenario scW 1 preState).view.offsetX ≠ -stOrigin.x * 3 ∧
    (loadScenario scW 1 preState).selectedObject = some pickedW ∧
    (loadScenario scW 1 preState).hoveredObject = some pickedW := by
  have hview : (loadScenario scW 1 preState).view = ⟨-30, 0, 3⟩ := by
    rw [loadScenario_view]
    have h := @resetViewport_view_of_valid
      { preState with
        scenario := some scW
        maxStep := scW.timestamps.length - 1
        scenarioIndex := 1 }
      scW sdcTrackW stTen rfl rfl rfl rfl
    rw [h]
    norm_num [stTen]
  refine ⟨rfl, rfl, rfl, by norm_num [stOrigin], by rw [hview], ?_, ?_, ?_⟩
  · rw [hview]
    norm_num [stOrigin]
  · rw [loadScenario_selectedObject]
    rfl
  · rw [loadScenario_hoveredObject]
    rfl

/-- C4 (amended): a successful scenario load sets the step to 0 and installs
the scenario, but recenters the viewport on the SDC's position at the
*pre-load* step index when that state exists and is valid; when there is no
SDC track, or its state at the stale index is missing or invalid, the
viewport is left unchanged; the selected and hovered objects are left
untouched either way. -/
theorem scenario_load_amended (sc : Scenario) (index : ℕ) (s : AppState) :
    (loadScenario sc index s).currentStep = 0 ∧
    (loadScenario sc index s).scenario = some sc ∧
    (loadScenario sc index s).scenarioIndex = index ∧
    (loadScenario sc index s).selectedObject = s.selectedObject ∧
    (loadScenario sc index s).hoveredObject = s.hoveredObject ∧
    (∀ sdc st, sc.tracks.sdc = some sdc → sdc.states.get? s.currentStep = some st →
       st.valid = true →
       (loadScenario sc index s).view = ⟨-st.x * 3, st.y * 3, 3⟩) ∧
    (sc.tracks.sdc = none → (loadScenario sc index s).view = s.view) ∧
    (∀ sdc, sc.tracks.sdc = some sdc → sdc.states.get? s.currentStep = none →
       (loadScenario sc index s).view = s.view) ∧
    (∀ sdc st, sc.tracks.sdc = some sdc → sdc.states.get? s.currentStep = some st →
       st.valid = false → (loadScenario sc index s).view = s.view) := by
  refine ⟨loadScenario_currentStep sc index s, loadScenario_scenario sc index s,
    loadScenario_scenarioIndex sc index s, loadScenario_selectedObject sc index s,
    loadScenario_hoveredObject sc index s, ?_, ?_, ?_, ?_⟩
  · intro sdc st h2 h3 h4
    rw [loadScenario_view]
    exact resetViewport_view_of_valid rfl h2 h3 h4
  · intro h2
    rw [loadScenario_view]
    exact resetViewport_view_no_sdc rfl h2
  · intro sdc h2 h3
    rw [loadScenario_view]
    exact resetViewport_view_missing rfl h2 h3
  · intro sdc st h2 h3 h4
    rw [loadScenario_view]
    exact resetViewport_view_invalid rfl h2 h3 h4

/-- C4 amended witness: the counterexample state again, via the amended
characterization — step 0, untouched selection, viewport centered on the
step-1 SDC state — plus the unchanged-viewport cases: a load while parked
at step 5 (beyond the new SDC's states) and a load landing on an invalid
SDC state both leave the viewport as it was. -/
theorem scenario_load_amended_witness :
    (loadScenario scW 1 preState).currentStep = 0 ∧
    (loadScenario scW 1 preState).selectedObject = some pickedW ∧
    (loadScenario scW 1 preState).view = ⟨-stTen.x * 3, stTen.y * 3, 3⟩ ∧
    (loadScenario scW 1 { preState with currentStep := 5 }).view = viewW ∧
    (loadScenario scInvalidSdc 1 { preState with currentStep := 0 }).view = viewW := by
  have h := scenario_load_amended scW 1 preState
  have hmiss := scenario_load_amended scW 1 { preState with currentStep := 5 }
  have hinv := scenario_load_amended scInvalidSdc 1 { preState with currentStep := 0 }
  exact ⟨h.1, h.2.2.2.1, h.2.2.2.2.2.1 sdcTrackW stTen rfl rfl rfl,
    hmiss.2.2.2.2.2.2.2.1 sdcTrackW rfl rfl,
    hinv.2.2.2.2.2.2.2.2 vehicleTrackInvalid stInvalidOrigin rfl rfl rfl⟩

/-! ## Shape lemmas for the hit-test layer checks -/

theorem agentStateHit_eq_some {env : TrigEnv} {px py : ℚ} {step : ℕ} {cat : AgentCat}
    {t : Track} {r : PickResult} (h : agentStateHit env px py step cat t = some r) :
    ∃ st, t.states.get? step = some st ∧ st.valid = true ∧
      isPointInVehicle env px py st = true ∧ r = .agent cat t.id st := by
  unfold agentStateHit at h
  cases hst : t.states.get? step with
  | none => simp only [hst] at h; cases h
  | some st =>
    simp only [hst] at h
    by_cases hc : (st.valid && isPointInVehicle env px py st) = true
    · rw [if_pos hc] at h
      rw [Bool.and_eq_true] at hc
      exact ⟨st, rfl, hc.1, hc.2, (Option.some_inj.mp h).symm⟩
    · rw [if_neg hc] at h; cases h

theorem sdcCheck_eq_some {env : TrigEnv} {sc : Scenario} {vis : LayerVisibility} {step : ℕ}
    {px py : ℚ} {r : PickResult} (h : sdcCheck env sc vis step px py = some r) :
    vis.sdc = true ∧ ∃ t st, sc.tracks.sdc = some t ∧ t.states.get? step = some st ∧
      st.valid = true ∧ isPointInVehicle env px py st = true ∧ r = .agent .sdc t.id st := by
  unfold sdcCheck at h
  cases hsdc : sc.tracks.sdc with
  | none => simp only [hsdc] at h; cases h
  | some t =>
    simp only [hsdc] at h
    by_cases hv : vis.sdc = true
    · rw [if_pos hv] at h
      obtain ⟨st, h1, h2, h3, h4⟩ := agentStateHit_eq_some h
      exact ⟨hv, t, st, rfl, h1, h2, h3, h4⟩
    · rw [if_neg hv] at h; cases h

theorem agentListCheck_eq_some {env : TrigEnv} {visFlag : Bool} {tracks : List Track}
    {cat : AgentCat} {step : ℕ} {px py : ℚ} {r : PickResult}
    (h : agentListCheck env visFlag tracks cat step px py = some r) :
    visFlag = true ∧ ∃ t ∈ tracks, ∃ st, t.states.get? step = some st ∧ st.valid = true ∧
      isPointInVehicle env px py st = true ∧ r = .agent cat t.id st := by
  unfold agentListCheck at h
  by_cases hv : visFlag = true
  · rw [if_pos hv] at h
    obtain ⟨t, ht, hhit⟩ := loopFirst_eq_some h
    obtain ⟨st, h1, h2, h3, h4⟩ := agentStateHit_eq_some hhit
    exact ⟨hv, t, ht, st, h1, h2, h3, h4⟩
  · rw [if_neg hv] at h; cases h

theorem polylineCheck_eq_some {visFlag : Bool} {feats : List PolylineFeature} {cat : FeatCat}
    {px py radius : ℚ} {r : PickResult} (h : polylineCheck visFlag feats cat px py radius = some r) :
    visFlag = true ∧ ∃ f ∈ feats, isPointNearPolyline px py f.polyline radius = true ∧
      r = .mapFeature cat (.polyline f.polyline) := by
  unfold polylineCheck at h
  by_cases hv : visFlag = true
  · rw [if_pos hv] at h
    obtain ⟨f, hf, hhit⟩ := loopFirst_eq_some h
    by_cases hnear : isPointNearPolyline px py f.polyline radius = true
    · rw [if_pos hnear] at hhit
      exact ⟨hv, f, hf, hnear, (Option.some_inj.mp hhit).symm⟩
    · rw [if_neg hnear] at hhit; cases hhit
  · rw [if_neg hv] at h; cases h

theorem polygonCheck_eq_some {visFlag : Bool} {feats : List PolygonFeature} {cat : FeatCat}
    {px py : ℚ} {r : PickResult} (h : polygonCheck visFlag feats cat px py = some r) :
    visFlag = true ∧ ∃ f ∈ feats, isPointInPolygon px py f.polygon = true ∧
      r = .mapFeature cat (.polygon f.polygon) := by
  unfold polygonCheck at h
  by_cases hv : visFlag = true
  · rw [if_pos hv] at h
    obtain ⟨f, hf, hhit⟩ := loopFirst_eq_some h
    by_cases hin : isPointInPolygon px py f.polygon = true
    · rw [if_pos hin] at hhit
      exact ⟨hv, f, hf, hin, (Option.some_inj.mp hhit).symm⟩
    · rw [if_neg hin] at hhit; cases hhit
  · rw [if_neg hv] at h; cases h

theorem stopSignCheck_eq_some {visFlag : Bool} {signs : List PointFeature} {px py : ℚ}
    {r : PickResult} (h : stopSignCheck visFlag signs px py = some r) :
    visFlag = true ∧ ∃ sg ∈ signs,
      (px - sg.position.1) ^ 2 + (py - sg.position.2) ^ 2 < 4 ∧
      r = .mapFeature .stopSign (.point sg.position) := by
  unfold stopSignCheck at h
  by_cases hv : visFlag = true
  · rw [if_pos hv] at h
    obtain ⟨sg, hsg, hhit⟩ := loopFirst_eq_some h
    by_cases hin : (px - sg.position.1) ^ 2 + (py - sg.position.2) ^ 2 < 4
    · rw [if_pos hin] at hhit
      exact ⟨hv, sg, hsg, hin, (Option.some_inj.mp hhit).symm⟩
    · rw [if_neg hin] at hhit; cases hhit
  · rw [if_neg hv] at h; cases h

/-- Every entry of `pickLayers` only produces results of its own layer, with
the layer's visibility flag up; agent results additionally carry a valid,
containing state.  The rank of the produced result equals the entry's
index. -/
theorem pickLayers_get_eq_some {env : TrigEnv} {sc : Scenario} {vis : LayerVisibility}
    {step : ℕ} {scale px py : ℚ} {i : ℕ} {r : PickResult}
    (h : (pickLayers env sc vis step scale px py).get? i = some (some r)) :
    pickRank r = i ∧
    (∀ c id st, r = .agent c id st → agentVisible vis c = true ∧ st.valid = true ∧
       isPointInVehicle env px py st = true) ∧
    (∀ fc g, r = .mapFeature fc g → featVisible vis fc = true) := by
  have hlen : i < 11 := by
    by_contra hge
    rw [List.get?_eq_none.mpr (by simpa [pickLayers] using Nat.le_of_not_lt hge)] at h
    cases h
  interval_cases i
  · simp only [pickLayers, List.get?] at h
    obtain ⟨hv, t, st, _, _, h2, h3, rfl⟩ := sdcCheck_eq_some (Option.some_inj.mp h)
    refine ⟨rfl, ?_, ?_⟩
    · intro c id st' hst
      cases hst
      exact ⟨hv, h2, h3⟩
    · intro fc g hfg
      cases hfg
  · simp only [pickLayers, List.get?] at h
    obtain ⟨hv, t, _, st, _, h2, h3, rfl⟩ := agentListCheck_eq_some (Option.some_inj.mp h)
    refine ⟨rfl, ?_, ?_⟩
    · intro c id st' hst
      cases hst
      exact ⟨hv, h2, h3⟩
    · intro fc g hfg
      cases hfg
  · simp only [pickLayers, List.get?] at h
    obtain ⟨hv, t, _, st, _, h2, h3, rfl⟩ := agentListCheck_eq_some (Option.some_inj.mp h)
    refine ⟨rfl, ?_, ?_⟩
    · intro c id st' hst
      cases hst
      exact ⟨hv, h2, h3⟩
    · intro fc g hfg
      cases hfg
  · simp only [pickLayers, List.get?] at h
    obtain ⟨hv, t, _, st, _, h2, h3, rfl⟩ := agentListCheck_eq_some (Option.some_inj.mp h)
    refine ⟨rfl, ?_, ?_⟩
    · intro c id st' hst
      cases hst
      exact ⟨hv, h2, h3⟩
    · intro fc g hfg
      cases hfg
  · simp only [pickLayers, List.get?] at h
    obtain ⟨hv, f, _, _, rfl⟩ := polylineCheck_eq_some (Option.some_inj.mp h)
    refine ⟨rfl, ?_, ?_⟩
    · intro c id st' hst
      cases hst
    · intro fc g hfg
      cases hfg
      exact hv
  · simp only [pickLayers, List.get?] at h
    obtain ⟨hv, f, _, _, rfl⟩ := polylineCheck_eq_some (Option.some_inj.mp h)
    refine ⟨rfl, ?_, ?_⟩
    · intro c id st' hst
      cases hst
    · intro fc g hfg
      cases hfg
      exact hv
  · simp only [pickLayers, List.get?] at h
    obtain ⟨hv, f, _, _, rfl⟩ := polylineCheck_eq_some (Option.some_inj.mp h)
    refine ⟨rfl, ?_, ?_⟩
    · intro c id st' hst
      cases hst
    · intro fc g hfg
      cases hfg
      exact hv
  · simp only [pickLayers, List.get?] at h
    obtain ⟨hv, f, _, _, rfl⟩ := polygonCheck_eq_some (Option.some_inj.mp h)
    refine ⟨rfl, ?_, ?_⟩
    · intro c id st' hst
      cases hst
    · intro fc g hfg
      cases hfg
      exact hv
  · simp only [pickLayers, List.get?] at h
    obtain ⟨hv, sg, _, _, rfl⟩ := stopSignCheck_eq_some (Option.some_inj.mp h)
    refine ⟨rfl, ?_, ?_⟩
    · intro c id st' hst
      cases hst
    · intro fc g hfg
      cases hfg
      exact hv
  · simp only [pickLayers, List.get?] at h
    obtain ⟨hv, f, _, _, rfl⟩ := polygonCheck_eq_some (Option.some_inj.mp h)
    refine ⟨rfl, ?_, ?_⟩
    · intro c id st' hst
      cases hst
    · intro fc g hfg
      cases hfg
      exact hv
  · simp only [pickLayers, List.get?] at h
    obtain ⟨hv, f, _, _, rfl⟩ := polygonCheck_eq_some (Option.some_inj.mp h)
    refine ⟨rfl, ?_, ?_⟩
    · intro c id st' hst
      cases hst
    · intro fc g hfg
      cases hfg
      exact hv

/-- `firstSome` over a cons, as an early-return step. -/
theorem firstSome_cons (o : Option α) (l : List (Option α)) :
    firstSome (o :: l) = match o with | some r => some r | none => firstSome l := rfl

/-! ## C1: invalid-state exclusion -/

/-- C1: no render or pick operation dereferences the geometry of an invalid
or missing state: every agent result the hit-test returns carries a valid
state, every box `drawAgents` emits comes from a track whose state at the
step exists and is valid, and likewise for `drawSDC`. -/
theorem invalid_state_exclusion (env : TrigEnv) (sc : Scenario) (vis : LayerVisibility)
    (step : ℕ) (scale px py : ℚ) :
    (∀ c id st, findObjectAtPosition env sc vis step scale px py = some (.agent c id st) →
       st.valid = true) ∧
    (∀ tracks b, b ∈ drawAgents step tracks →
       ∃ t ∈ tracks, ∃ st, t.states.get? step = some st ∧ st.valid = true ∧
         b = boxOfState st) ∧
    (∀ b ∈ drawSDC step sc.tracks.sdc,
       ∃ t st, sc.tracks.sdc = some t ∧ t.states.get? step = some st ∧ st.valid = true ∧
         b = boxOfState st) := by
  refine ⟨?_, ?_, ?_⟩
  · intro c id st h
    obtain ⟨i, hget, _⟩ := firstSome_eq_some h
    exact ((pickLayers_get_eq_some hget).2.1 c id st rfl).2.1
  · intro tracks b hb
    obtain ⟨t, ht, hft⟩ := List.mem_filterMap.mp hb
    cases hst : t.states.get? step with
    | none => simp only [hst] at hft; cases hft
    | some st =>
      simp only [hst] at hft
      by_cases hv : st.valid = true
      · rw [if_pos hv] at hft
        exact ⟨t, ht, st, hst, hv, (Option.some_inj.mp hft).symm⟩
      · rw [if_neg hv] at hft
        cases hft
  · intro b hb
    simp only [drawSDC] at hb
    cases hsdc : sc.tracks.sdc with
    | none => simp only [hsdc] at hb; cases hb
    | some t =>
      simp only [hsdc] at hb
      cases hst : t.states.get? step with
      | none => simp only [hst] at hb; cases hb
      | some st =>
        simp only [hst] at hb
        by_cases hv : st.valid = true
        · rw [if_pos hv] at hb
          exact ⟨t, st, rfl, hst, hv, List.mem_singleton.mp hb⟩
        · rw [if_neg hv] at hb
          cases hb

/-- C1 witness: the SDC at the origin is picked at `(0, 0)` and its carried
state is valid; its rendered box comes from a valid state. -/
theorem invalid_state_exclusion_witness :
    stOrigin.valid = true ∧
    ∃ t st, scW.tracks.sdc = some t ∧ t.states.get? 0 = some st ∧ st.valid = true ∧
      boxOfState stOrigin = boxOfState st := by
  have hfind : findObjectAtPosition envW scW visAll 0 1 0 0
      = some (.agent .sdc 7 stOrigin) := by
    norm_num [findObjectAtPosition, pickLayers, firstSome, loopFirst, sdcCheck,
      agentStateHit, isPointInVehicle, localCoords, jsOr, scW, sdcTrackW, stOrigin,
      visAll, envW, List.get?]
  have hbox : boxOfState stOrigin ∈ drawSDC 0 scW.tracks.sdc := by
    norm_num [drawSDC, scW, sdcTrackW, stOrigin, List.get?]
  exact ⟨(invalid_state_exclusion envW scW visAll 0 1 0 0).1 .sdc 7 stOrigin hfind,
    (invalid_state_exclusion envW scW visAll 0 1 0 0).2.2 (boxOfState stOrigin) hbox⟩

/-! ## C2: hit-test priority order -/

/-- C2: the pick tries its eleven layers in the fixed priority order and
returns the first match: a returned result comes from the layer at its own
rank with all higher-priority layers missing; an empty result means every
layer missed; a returned layer's visibility toggle is up (an invisible
layer is never tested); and a visible vehicle whose box contains the point
forces an agent result — never a lane or other map feature. -/
theorem pick_priority_order (env : TrigEnv) (sc : Scenario) (vis : LayerVisibility)
    (step : ℕ) (scale px py : ℚ) :
    (∀ r, findObjectAtPosition env sc vis step scale px py = some r →
       (pickLayers env sc vis step scale px py).get? (pickRank r) = some (some r) ∧
       ∀ j < pickRank r, (pickLayers env sc vis step scale px py).get? j = some none) ∧
    (findObjectAtPosition env sc vis step scale px py = none →
       ∀ o ∈ pickLayers env sc vis step scale px py, o = none) ∧
    (∀ c id st, findObjectAtPosition env sc vis step scale px py = some (.agent c id st) →
       agentVisible vis c = true ∧ st.valid = true ∧
       isPointInVehicle env px py st = true) ∧
    (∀ fc g, findObjectAtPosition env sc vis step scale px py = some (.mapFeature fc g) →
       featVisible vis fc = true) ∧
    (vis.vehicles = true →
       (∃ t ∈ sc.tracks.vehicles, ∃ st, t.states.get? step = some st ∧ st.valid = true ∧
          isPointInVehicle env px py st = true) →
       ∃ c id st, findObjectAtPosition env sc vis step scale px py
         = some (.agent c id st)) := by
  refine ⟨?_, ?_, ?_, ?_, ?_⟩
  · intro r h
    obtain ⟨i, hget, hbefore⟩ := firstSome_eq_some h
    have hrank := (pickLayers_get_eq_some hget).1
    subst hrank
    exact ⟨hget, hbefore⟩
  · intro h o ho
    exact firstSome_eq_none h o ho
  · intro c id st h
    obtain ⟨i, hget, _⟩ := firstSome_eq_some h
    exact (pickLayers_get_eq_some hget).2.1 c id st rfl
  · intro fc g h
    obtain ⟨i, hget, _⟩ := firstSome_eq_some h
    exact (pickLayers_get_eq_some hget).2.2 fc g rfl
  · rintro hveh ⟨t, ht, st, hst, hv, hp⟩
    have hhit : agentStateHit env px py step .vehicle t = some (.agent .vehicle t.id st) := by
      unfold agentStateHit
      simp only [hst]
      rw [if_pos (by rw [Bool.and_eq_true]; exact ⟨hv, hp⟩)]
    obtain ⟨r1, hr1⟩ := loopFirst_ne_none ht hhit
    have hlayer : agentListCheck env vis.vehicles sc.tracks.vehicles .vehicle step px py
        = some r1 := by
      unfold agentListCheck
      rw [if_pos hveh]
      exact hr1
    cases hc0 : sdcCheck env sc vis step px py with
    | some r0 =>
      obtain ⟨_, t0, st0, _, _, _, _, rfl⟩ := sdcCheck_eq_some hc0
      refine ⟨.sdc, t0.id, st0, ?_⟩
      unfold findObjectAtPosition
      simp only [pickLayers, firstSome_cons, hc0]
    | none =>
      obtain ⟨_, t1, _, st1, _, _, _, rfl⟩ := agentListCheck_eq_some hlayer
      refine ⟨.vehicle, t1.id, st1, ?_⟩
      unfold findObjectAtPosition
      simp only [pickLayers, firstSome_cons, hc0, hlayer]

/-- C2 witness: with every layer visible, a vehicle box and a lane polyline
both containing the origin, picking the origin returns an agent, not the
lane. -/
theorem pick_priority_order_witness :
    ∃ c id st, findObjectAtPosition envW scVehicle visAll 0 1 0 0
      = some (.agent c id st) :=
  (pick_priority_order envW scVehicle visAll 0 1 0 0).2.2.2.2 rfl
    ⟨vehicleTrackW, by norm_num [scVehicle], stOrigin, rfl, rfl,
      by norm_num [isPointInVehicle, localCoords, jsOr, stOrigin, envW]⟩

/-! ## C5: trajectory drawing -/

theorem validPoints_cons (st : TrackState) (rest : List TrackState) :
    validPoints (st :: rest) =
      if st.valid then (st.x, st.y) :: validPoints rest else validPoints rest := by
  unfold validPoints
  rw [List.filter_cons]
  by_cases h : st.valid
  · simp [h]
  · simp [h]

theorem trajectoryLoop_true (l : List TrackState) :
    trajectoryLoop true l = (validPoints l).map (fun q => PathCmd.lineTo q.1 q.2) := by
  induction l with
  | nil => rfl
  | cons st rest ih =>
    by_cases h : st.valid
    · simp [trajectoryLoop, h, validPoints_cons, ih]
    · simp [trajectoryLoop, h, validPoints_cons, ih]

theorem trajectoryLoop_false (l : List TrackState) :
    trajectoryLoop false l = pathThrough (validPoints l) := by
  induction l with
  | nil => rfl
  | cons st rest ih =>
    by_cases h : st.valid
    · simp [trajectoryLoop, h, validPoints_cons, pathThrough, trajectoryLoop_true]
    · simp [trajectoryLoop, h, validPoints_cons, ih]

/-- C5 counterexample: an agent valid at steps 0 and 2 but invalid at step 1
is drawn as `moveTo (0,0); lineTo (2,0)` — a single line segment connecting
the two valid samples straight across the invalid step; the path is *not*
re-seeded with a `moveTo` at the post-gap sample. -/
theorem trajectory_counterexample :
    drawAgentTrajectory 0 [stOrigin, stInvalidOrigin, stTwo]
      = [PathCmd.moveTo 0 0, PathCmd.lineTo 2 0] ∧
    PathCmd.moveTo 2 0 ∉ drawAgentTrajectory 0 [stOrigin, stInvalidOrigin, stTwo] := by
  have h : drawAgentTrajectory 0 [stOrigin, stInvalidOrigin, stTwo]
      = [PathCmd.moveTo 0 0, PathCmd.lineTo 2 0] := by
    norm_num [drawAgentTrajectory, trajectoryLoop, stOrigin, stInvalidOrigin, stTwo,
      List.get?]
  refine ⟨h, ?_⟩
  rw [h]
  intro hmem
  rcases List.mem_cons.mp hmem with hc | hc
  · injection hc with h1 h2
    norm_num at h1
  · rcases List.mem_cons.mp hc with hc' | hc'
    · cases hc'
    · cases hc'

/-- C5 (amended): for an agent whose current-step state is valid, the drawn
trajectory covers exactly the future valid samples (from the current step
to the end, skipping invalid states), as one continuous path: `moveTo` at
the first valid sample and `lineTo` at every later one — including across
gaps, so a segment does connect valid samples across intervening invalid
steps. -/
theorem trajectory_amended (step : ℕ) (states : List TrackState) (st : TrackState)
    (hst : states.get? step = some st) (hv : st.valid = true) :
    drawAgentTrajectory step states = pathThrough (validPoints (states.drop step)) := by
  have hne : states.isEmpty = false := by
    cases states with
    | nil => simp at hst
    | cons a l => rfl
  unfold drawAgentTrajectory
  rw [if_neg (by simp [hne])]
  simp only [hst]
  rw [if_pos hv]
  exact trajectoryLoop_false _

/-- C5 amended witness: the counterexample trajectory again, matching the
single-path characterization. -/
theorem trajectory_amended_witness :
    drawAgentTrajectory 0 [stOrigin, stInvalidOrigin, stTwo]
      = pathThrough (validPoints (List.drop 0 [stOrigin, stInvalidOrigin, stTwo])) :=
  trajectory_amended 0 [stOrigin, stInvalidOrigin, stTwo] stOrigin rfl rfl

/-! ## C10: default dimensions in hit-test and highlight -/

/-- C10: when a valid state's length and width are missing or zero, the
containment test uses the default 4×2 box — `|localX| ≤ 2·1.1` and
`|localY| ≤ 1·1.1` — and the selection/hover highlight strokes the default
4×2 box inflated by 0.6 per axis, so such agents stay pickable and
highlightable. -/
theorem default_dims (env : TrigEnv) (px py : ℚ) (st : TrackState)
    (hl : st.length = none ∨ st.length = some 0)
    (hw : st.width = none ∨ st.width = some 0)
    (hv : st.valid = true) :
    isPointInVehicle env px py st =
      (decide (|(localCoords env px py st).1| ≤ 2 * (11/10)) &&
        decide (|(localCoords env px py st).2| ≤ 1 * (11/10))) ∧
    agentHighlightRect st = some ⟨-(4/2) - 3/10, -(2/2) - 3/10, 4 + 6/10, 2 + 6/10⟩ := by
  have hL : jsOr st.length 4 = 4 := by
    rcases hl with h | h <;> simp [jsOr, h]
  have hW : jsOr st.width 2 = 2 := by
    rcases hw with h | h <;> simp [jsOr, h]
  constructor
  · unfold isPointInVehicle
    rw [hL, hW]
    norm_num
  · unfold agentHighlightRect
    rw [if_pos hv, hL, hW]
    norm_num

/-- C10 witness: a valid state with missing length and zero width. -/
theorem default_dims_witness :
    isPointInVehicle envW 0 0 stNoDims =
      (decide (|(localCoords envW 0 0 stNoDims).1| ≤ 2 * (11/10)) &&
        decide (|(localCoords envW 0 0 stNoDims).2| ≤ 1 * (11/10))) ∧
    agentHighlightRect stNoDims
      = some ⟨-(4/2) - 3/10, -(2/2) - 3/10, 4 + 6/10, 2 + 6/10⟩ :=
  default_dims envW 0 0 stNoDims (Or.inl rfl) (Or.inr rfl) rfl

end WODM
